import Mathlib

/-!
Shallow embedding of `src/assets/icon/generate_icon.py` (the single source file
of the repository) and proofs about it.

The script is one function, `generate_icon`, that builds a 1024×1024 RGBA
image with Pillow: a circular background, two rotated text labels drawn on
temporary transparent layers, four star polygons, two heart circles, and a
final save to "icon.png".

The embedding is a pure function from an `Env` — the environment-dependent
behaviour of the drawing library (whether each `ImageFont.truetype` call
succeeds, what `textbbox` measures for a font and string, and which pixels the
rasteriser paints for the env-dependent operations) — to a `RunResult`: the
canvas parameters, the ordered list of drawing operations issued, the printed
line and the returned string.  Integer arithmetic of the source (`//`) is
embedded with `Int.fdiv` (Python floor division); the star-vertex trigonometry
(`math.cos` / `math.sin` / `math.radians`) is embedded over ℝ.
-/

namespace IconGen

/-- An RGBA colour, one channel per field, as Pillow colour tuples. -/
structure Color where
  r : ℕ
  g : ℕ
  b : ℕ
  a : ℕ
deriving DecidableEq, Repr

/-- A font handle: either a truetype font loaded from a path at a pixel size
(`ImageFont.truetype(path, size)`), or the built-in default font
(`ImageFont.load_default()`). -/
inductive Font where
  | truetype (path : String) (size : ℕ)
  | builtin
deriving DecidableEq, Repr

/-- A bounding box as returned by `draw.textbbox` or passed to `draw.ellipse`:
left, top, right, bottom. -/
structure BBox where
  x0 : ℤ
  y0 : ℤ
  x1 : ℤ
  y1 : ℤ
deriving DecidableEq, Repr

/-- Width of a bounding box, `bbox[2] - bbox[0]` in the source. -/
def BBox.width (b : BBox) : ℤ := b.x1 - b.x0

/-- Height of a bounding box, `bbox[3] - bbox[1]` in the source. -/
def BBox.height (b : BBox) : ℤ := b.y1 - b.y0

/-- The data of a temporary text layer: `Image.new('RGBA', size, init)`
followed by a single `draw.text(inset, text, font=font, fill=fill)`. -/
structure TextLayerData where
  size : ℤ × ℤ
  init : Color
  inset : ℤ × ℤ
  text : String
  font : Font
  fill : Color
deriving DecidableEq, Repr

/-- The data of rotating a text layer and pasting it onto the canvas:
`layer.rotate(angle, expand=expand)` then `img.paste(rotated, pos, mask)`,
where `maskIsLayer` records that the mask argument is the rotated layer
itself. -/
structure PasteData where
  layer : TextLayerData
  angle : ℤ
  expand : Bool
  pos : ℤ × ℤ
  maskIsLayer : Bool
deriving DecidableEq, Repr

/-- One drawing-library call issued against the canvas, in program order. -/
inductive Op where
  | ellipse (bbox : BBox) (fill : Color) (outline : Option Color) (width : ℕ)
  | pasteLayer (d : PasteData)
  | starPolygon (pos : ℤ × ℤ) (fill : Color)
  | save (path : String)
deriving DecidableEq, Repr

/-- The environment-dependent behaviour of the drawing library. -/
structure Env where
  /-- Whether `ImageFont.truetype(path, size)` succeeds (does not raise). -/
  truetypeOk : String → ℕ → Bool
  /-- The bounding box `draw.textbbox((0, 0), text, font=font)` reports. -/
  bboxOf : Font → String → BBox
  /-- Which colour (if any) pasting a rotated text layer contributes at a
  canvas pixel; `none` when the layer's mask is transparent there. -/
  pasteColor : PasteData → ℤ × ℤ → Option Color
  /-- Which colour (if any) the filled star polygon at a given position
  contributes at a canvas pixel; `none` outside the rasterised polygon. -/
  starPaint : (ℤ × ℤ) → Color → (ℤ × ℤ) → Option Color

/-- The outcome of one run of `generate_icon`. -/
structure RunResult where
  canvasMode : String
  canvasSize : ℤ × ℤ
  canvasInit : Color
  ops : List Op
  printed : List String
  ret : String
deriving DecidableEq, Repr

/-! ### Constants of the source -/

def center : ℤ × ℤ := (512, 512)

def radius : ℤ := 480

def backgroundColor : Color := ⟨248, 249, 250, 255⟩

def circleOutlineColor : Color := ⟨222, 226, 230, 255⟩

def helloText : String := "Hello"

def helloColor : Color := ⟨255, 59, 48, 255⟩

def worldText : String := "World"

def worldColor : Color := ⟨0, 122, 255, 255⟩

def starColor : Color := ⟨255, 215, 0, 200⟩

def heartColor : Color := ⟨255, 105, 180, 150⟩

def sparklePositions : List (ℤ × ℤ) := [(180, 200), (844, 180), (160, 780), (860, 820)]

def heartPositions : List (ℤ × ℤ) := [(240, 340), (780, 680)]

def outputPath : String := "icon.png"

/-! ### Font resolution

The source wraps the two tier-1 `truetype` calls in a `try`, falls to the two
tier-2 calls in a nested `try`, and finally to `load_default()`.  A tier is
taken iff both of its loads succeed (if the second of the two raises, the
whole tier is abandoned, including the already-assigned large font). -/

/-- Resolution of `(font_large, font_emoji)` by the ordered fallback chain of
lines 27–39 of the source. -/
def resolveFonts (env : Env) : Font × Font :=
  if env.truetypeOk "arial.ttf" 140 && env.truetypeOk "arial.ttf" 40 then
    (Font.truetype "arial.ttf" 140, Font.truetype "arial.ttf" 40)
  else if env.truetypeOk "C:/Windows/Fonts/arial.ttf" 140 &&
      env.truetypeOk "C:/Windows/Fonts/arial.ttf" 40 then
    (Font.truetype "C:/Windows/Fonts/arial.ttf" 140,
     Font.truetype "C:/Windows/Fonts/arial.ttf" 40)
  else
    (Font.builtin, Font.builtin)

/-- `font_large`, the first component of the resolved pair. -/
def fontLarge (env : Env) : Font := (resolveFonts env).1

/-- `font_emoji`, the second component of the resolved pair. -/
def fontEmoji (env : Env) : Font := (resolveFonts env).2

/-! ### Label layers -/

/-- `hello_bbox = draw.textbbox((0, 0), hello_text, font=font_large)`. -/
def helloBBox (env : Env) : BBox := env.bboxOf (fontLarge env) helloText

def helloWidth (env : Env) : ℤ := (helloBBox env).width

def helloHeight (env : Env) : ℤ := (helloBBox env).height

/-- `hello_x = center[0] - hello_width // 2` (Python floor division). -/
def helloX (env : Env) : ℤ := center.1 - (helloWidth env).fdiv 2

def helloY : ℤ := 350

/-- The temporary "Hello" layer of lines 55–57: a transparent RGBA image of
size `(hello_width + 100, hello_height + 50)` with the text drawn at
`(50, 25)` in red. -/
def helloImg (env : Env) : TextLayerData :=
  ⟨(helloWidth env + 100, helloHeight env + 50), ⟨0, 0, 0, 0⟩, (50, 25),
   helloText, fontLarge env, helloColor⟩

/-- Lines 60–61: rotate the "Hello" layer by −8° with `expand=True` and paste
it at `(hello_x - 50, hello_y - 25)` with the layer as its own mask. -/
def helloPaste (env : Env) : PasteData :=
  ⟨helloImg env, -8, true, (helloX env - 50, helloY - 25), true⟩

/-- `world_bbox = draw.textbbox((0, 0), world_text, font=font_large)`. -/
def worldBBox (env : Env) : BBox := env.bboxOf (fontLarge env) worldText

def worldWidth (env : Env) : ℤ := (worldBBox env).width

def worldHeight (env : Env) : ℤ := (worldBBox env).height

/-- `world_x = center[0] - world_width // 2` (Python floor division). -/
def worldX (env : Env) : ℤ := center.1 - (worldWidth env).fdiv 2

def worldY : ℤ := 520

/-- The temporary "World" layer of lines 77–79. -/
def worldImg (env : Env) : TextLayerData :=
  ⟨(worldWidth env + 100, worldHeight env + 50), ⟨0, 0, 0, 0⟩, (50, 25),
   worldText, fontLarge env, worldColor⟩

/-- Lines 82–83: rotate the "World" layer by +5° with `expand=True` and paste
it at `(world_x - 50, world_y - 25)` with the layer as its own mask. -/
def worldPaste (env : Env) : PasteData :=
  ⟨worldImg env, 5, true, (worldX env - 50, worldY - 25), true⟩

/-! ### Star geometry (lines 94–110) -/

def starSize : ℤ := 20

/-- The radius used for vertex `i`: the outer radius for even `i`, the inner
radius `star_size // 2` for odd `i`. -/
def starRadius (i : ℕ) : ℤ := if i % 2 = 0 then starSize else starSize / 2

/-- The angle, in degrees, of vertex `i` before the −90° offset: `i * 36`. -/
def starAngleDeg (i : ℕ) : ℤ := i * 36

/-- `math.radians`: degrees to radians. -/
noncomputable def radiansOf (d : ℤ) : ℝ := (d : ℝ) * Real.pi / 180

/-- Vertex `i` of the star at `pos`:
`(pos[0] + r * cos(radians(angle - 90)), pos[1] + r * sin(radians(angle - 90)))`. -/
noncomputable def starVertex (pos : ℤ × ℤ) (i : ℕ) : ℝ × ℝ :=
  ((pos.1 : ℝ) + (starRadius i : ℝ) * Real.cos (radiansOf (starAngleDeg i - 90)),
   (pos.2 : ℝ) + (starRadius i : ℝ) * Real.sin (radiansOf (starAngleDeg i - 90)))

/-- The ten-vertex point list built by the `for i in range(10)` loop. -/
noncomputable def starPoints (pos : ℤ × ℤ) : List (ℝ × ℝ) :=
  (List.range 10).map (starVertex pos)

/-! ### The whole run -/

/-- The bounding box of a heart: `[pos[0]-15, pos[1]-15, pos[0]+15, pos[1]+15]`. -/
def heartBBox (pos : ℤ × ℤ) : BBox := ⟨pos.1 - 15, pos.2 - 15, pos.1 + 15, pos.2 + 15⟩

/-- The bounding box of the circular background (lines 22–23). -/
def circleBBox : BBox :=
  ⟨center.1 - radius, center.2 - radius, center.1 + radius, center.2 + radius⟩

/-- The pipeline from the canvas drawing on, given the already-resolved large
font.  Everything after font resolution uses only `font_large`; the source
never mentions `font_emoji` again after line 39. -/
def runWith (env : Env) (fl : Font) : RunResult :=
  let hBBox := env.bboxOf fl helloText
  let hX := center.1 - hBBox.width.fdiv 2
  let hImg : TextLayerData :=
    ⟨(hBBox.width + 100, hBBox.height + 50), ⟨0, 0, 0, 0⟩, (50, 25),
     helloText, fl, helloColor⟩
  let hPaste : PasteData := ⟨hImg, -8, true, (hX - 50, helloY - 25), true⟩
  let wBBox := env.bboxOf fl worldText
  let wX := center.1 - wBBox.width.fdiv 2
  let wImg : TextLayerData :=
    ⟨(wBBox.width + 100, wBBox.height + 50), ⟨0, 0, 0, 0⟩, (50, 25),
     worldText, fl, worldColor⟩
  let wPaste : PasteData := ⟨wImg, 5, true, (wX - 50, worldY - 25), true⟩
  { canvasMode := "RGBA"
    canvasSize := (1024, 1024)
    canvasInit := backgroundColor
    ops := [Op.ellipse circleBBox backgroundColor (some circleOutlineColor) 8,
            Op.pasteLayer hPaste,
            Op.pasteLayer wPaste] ++
           sparklePositions.map (fun p => Op.starPolygon p starColor) ++
           heartPositions.map (fun p => Op.ellipse (heartBBox p) heartColor none 0) ++
           [Op.save outputPath]
    printed := ["Icon generated successfully as icon.png"]
    ret := outputPath }

/-- The embedding of `generate_icon`: resolve the fonts by the fallback chain,
then run the drawing pipeline with `font_large`. -/
def generateIcon (env : Env) : RunResult := runWith env (fontLarge env)

/-! ### Pixel interpretation of a run

Each operation either contributes a colour at a pixel or leaves it alone; the
final colour of a pixel is the last contribution, starting from the canvas
initialisation colour.  The geometry of `draw.ellipse` is concrete (a pixel is
inside the axis-aligned ellipse of the bounding box; the `width`-wide outline
band is the inside minus the ellipse of the bounding box shrunk by `width`);
the rasterisation of pasted rotated text layers and of star polygons is
environment-supplied. -/

/-- Whether a pixel lies inside the axis-aligned ellipse inscribed in `b`:
with centre `((x0+x1)/2, (y0+y1)/2)` and semi-axes `(x1-x0)/2`, `(y1-y0)/2`,
cleared of denominators. -/
def insideEllipse (b : BBox) (p : ℤ × ℤ) : Bool :=
  (2 * p.1 - (b.x0 + b.x1)) ^ 2 * (b.y1 - b.y0) ^ 2 +
      (2 * p.2 - (b.y0 + b.y1)) ^ 2 * (b.x1 - b.x0) ^ 2 ≤
    (b.x1 - b.x0) ^ 2 * (b.y1 - b.y0) ^ 2

/-- `b` shrunk by `w` on every side, the inner boundary of an outline band. -/
def BBox.shrink (b : BBox) (w : ℕ) : BBox :=
  ⟨b.x0 + w, b.y0 + w, b.x1 - w, b.y1 - w⟩

/-- The colour an operation contributes at pixel `p`, or `none`. -/
def paintAt (env : Env) (op : Op) (p : ℤ × ℤ) : Option Color :=
  match op with
  | Op.ellipse b fill outline w =>
      if insideEllipse b p then
        if insideEllipse (b.shrink w) p then some fill
        else some (outline.getD fill)
      else none
  | Op.pasteLayer d => env.pasteColor d p
  | Op.starPolygon pos c => env.starPaint pos c p
  | Op.save _ => none

/-- The final colour of pixel `p` after a run: the canvas initialisation
colour overpainted, in order, by every operation that covers `p`. -/
def finalColorAt (env : Env) (res : RunResult) (p : ℤ × ℤ) : Color :=
  res.ops.foldl (fun acc op => (paintAt env op p).getD acc) res.canvasInit

/-! ### Concrete environments used by witnesses and counterexamples -/

/-- An environment in which every font load succeeds, text measures a fixed
box, and no paste or polygon covers any pixel. -/
def envTrue : Env :=
  { truetypeOk := fun _ _ => true
    bboxOf := fun _ _ => ⟨0, 0, 300, 100⟩
    pasteColor := fun _ _ => none
    starPaint := fun _ _ _ => none }

/-- An environment in which exactly the `truetype("arial.ttf", 40)` load
raises (as happens for bitmap-strike fonts that only support certain sizes)
while every other load succeeds, and in which pasted layers drawn with the
tier-1 large font cover the centre pixel. -/
def envSize40Fails : Env :=
  { truetypeOk := fun path size => !(path == "arial.ttf" && size == 40)
    bboxOf := fun _ _ => ⟨0, 0, 300, 100⟩
    pasteColor := fun d p =>
      if d.layer.font = Font.truetype "arial.ttf" 140 ∧ p = (512, 512) then
        some ⟨0, 0, 0, 255⟩
      else none
    starPaint := fun _ _ _ => none }

/-! ### The counterfactual program that never loads `font_emoji`

Used to settle the frame-effect claim about `font_emoji`.  It follows the
claim's words ("a run that never loads it"): the same fallback chain with the
two 40pt loads deleted, followed by the identical drawing pipeline. -/

/-- Resolution of `font_large` by the fallback chain with the `font_emoji`
loads removed: a tier is taken iff its single 140pt load succeeds. -/
def resolveFontLargeOnly (env : Env) : Font :=
  if env.truetypeOk "arial.ttf" 140 then Font.truetype "arial.ttf" 140
  else if env.truetypeOk "C:/Windows/Fonts/arial.ttf" 140 then
    Font.truetype "C:/Windows/Fonts/arial.ttf" 140
  else Font.builtin

/-- The run of the modified script that never loads `font_emoji`. -/
def generateIconNoEmoji (env : Env) : RunResult := runWith env (resolveFontLargeOnly env)

/-- The fonts passed to drawing or measurement operations of a run, in
order: one entry per pasted text layer. -/
def fontsUsed (r : RunResult) : List Font :=
  r.ops.foldr
    (fun op acc =>
      match op with
      | Op.pasteLayer d => d.layer.font :: acc
      | _ => acc)
    []

end IconGen

namespace IconGen

/-- C1: for every environment, the run issues exactly one save, to the
relative path "icon.png", as its final operation (after every drawing
operation), and returns the string "icon.png"; this holds regardless of which
font tier the fallback chain selects. -/
theorem save_and_return_icon_png (env : Env) :
    (generateIcon env).ret = "icon.png" ∧
      (generateIcon env).ops.getLast? = some (Op.save "icon.png") ∧
      (generateIcon env).ops.count (Op.save "icon.png") = 1 := by
  refine ⟨rfl, rfl, ?_⟩
  simp [generateIcon, runWith, sparklePositions, heartPositions, outputPath,
    List.count_cons, List.count_append]

/-- C1 witness: the conclusion at the concrete all-loads-succeed environment. -/
theorem save_and_return_icon_png_holds :
    (generateIcon envTrue).ret = "icon.png" ∧
      (generateIcon envTrue).ops.getLast? = some (Op.save "icon.png") ∧
      (generateIcon envTrue).ops.count (Op.save "icon.png") = 1 :=
  save_and_return_icon_png envTrue

/-- C2: for every environment the canvas is created in RGBA mode at
1024×1024, initialised to the opaque colour (248, 249, 250, 255), and the
image written by the final save is that canvas (same dimensions and mode). -/
theorem canvas_mode_size_init (env : Env) :
    (generateIcon env).canvasMode = "RGBA" ∧
      (generateIcon env).canvasSize = (1024, 1024) ∧
      (generateIcon env).canvasInit = ⟨248, 249, 250, 255⟩ ∧
      (generateIcon env).canvasInit.a = 255 ∧
      Op.save "icon.png" ∈ (generateIcon env).ops := by
  refine ⟨rfl, rfl, rfl, rfl, ?_⟩
  simp [generateIcon, runWith, outputPath]

/-- C2 witness: the conclusion at the concrete all-loads-succeed environment. -/
theorem canvas_mode_size_init_holds :
    (generateIcon envTrue).canvasMode = "RGBA" ∧
      (generateIcon envTrue).canvasSize = (1024, 1024) ∧
      (generateIcon envTrue).canvasInit = ⟨248, 249, 250, 255⟩ ∧
      (generateIcon envTrue).canvasInit.a = 255 ∧
      Op.save "icon.png" ∈ (generateIcon envTrue).ops :=
  canvas_mode_size_init envTrue

/-- C3: the font fallback chain: tier 1 (both loads of "arial.ttf" at sizes
140 and 40 succeed) yields those fonts; otherwise tier 2 (both loads of
"C:/Windows/Fonts/arial.ttf" at the same sizes succeed) yields those;
otherwise the built-in default font is used for both handles.  The resolved
large font is the single handle used by both the "Hello" and "World"
layers. -/
theorem font_fallback_chain (env : Env) :
    ((env.truetypeOk "arial.ttf" 140 && env.truetypeOk "arial.ttf" 40) = true →
      resolveFonts env = (Font.truetype "arial.ttf" 140, Font.truetype "arial.ttf" 40)) ∧
    ((env.truetypeOk "arial.ttf" 140 && env.truetypeOk "arial.ttf" 40) = false →
      (env.truetypeOk "C:/Windows/Fonts/arial.ttf" 140 &&
          env.truetypeOk "C:/Windows/Fonts/arial.ttf" 40) = true →
      resolveFonts env = (Font.truetype "C:/Windows/Fonts/arial.ttf" 140,
        Font.truetype "C:/Windows/Fonts/arial.ttf" 40)) ∧
    ((env.truetypeOk "arial.ttf" 140 && env.truetypeOk "arial.ttf" 40) = false →
      (env.truetypeOk "C:/Windows/Fonts/arial.ttf" 140 &&
          env.truetypeOk "C:/Windows/Fonts/arial.ttf" 40) = false →
      resolveFonts env = (Font.builtin, Font.builtin)) ∧
    (helloImg env).font = fontLarge env ∧ (worldImg env).font = fontLarge env := by
  refine ⟨fun h1 => ?_, fun h1 h2 => ?_, fun h1 h2 => ?_, rfl, rfl⟩
  · simp [resolveFonts, h1]
  · simp [resolveFonts, h1, h2]
  · simp [resolveFonts, h1, h2]

/-- C3 witness: at the all-loads-succeed environment, tier 1 is selected and
the two label layers share the resolved large font. -/
theorem font_fallback_chain_tier1 :
    resolveFonts envTrue = (Font.truetype "arial.ttf" 140, Font.truetype "arial.ttf" 40) ∧
      (helloImg envTrue).font = fontLarge envTrue :=
  ⟨(font_fallback_chain envTrue).1 rfl, (font_fallback_chain envTrue).2.2.2.1⟩

/-- C4: each label layer is allocated at exactly (width + 100, height + 50)
of the measured bounding box, fully transparent, with the text drawn at inset
(50, 25) in the label's colour — red (255,59,48,255) for "Hello", blue
(0,122,255,255) for "World" — and both layers are pasted in the run. -/
theorem layer_allocation_and_text (env : Env) :
    (helloImg env).size = ((env.bboxOf (fontLarge env) "Hello").width + 100,
        (env.bboxOf (fontLarge env) "Hello").height + 50) ∧
      (helloImg env).init = ⟨0, 0, 0, 0⟩ ∧
      (helloImg env).inset = (50, 25) ∧
      (helloImg env).text = "Hello" ∧
      (helloImg env).fill = ⟨255, 59, 48, 255⟩ ∧
      (worldImg env).size = ((env.bboxOf (fontLarge env) "World").width + 100,
        (env.bboxOf (fontLarge env) "World").height + 50) ∧
      (worldImg env).init = ⟨0, 0, 0, 0⟩ ∧
      (worldImg env).inset = (50, 25) ∧
      (worldImg env).text = "World" ∧
      (worldImg env).fill = ⟨0, 122, 255, 255⟩ ∧
      (helloPaste env).layer = helloImg env ∧
      (worldPaste env).layer = worldImg env ∧
      Op.pasteLayer (helloPaste env) ∈ (generateIcon env).ops ∧
      Op.pasteLayer (worldPaste env) ∈ (generateIcon env).ops := by
  refine ⟨rfl, rfl, rfl, rfl, rfl, rfl, rfl, rfl, rfl, rfl, rfl, rfl, ?_, ?_⟩ <;>
    simp [generateIcon, runWith, helloPaste, worldPaste, helloImg, worldImg,
      helloX, worldX, helloBBox, worldBBox, helloWidth, worldWidth,
      helloHeight, worldHeight]

/-- C5: the "Hello" layer is rotated by exactly −8 degrees and the "World"
layer by exactly +5 degrees, both with bounds expansion. -/
theorem rotation_angles_and_expand (env : Env) :
    (helloPaste env).angle = -8 ∧ (helloPaste env).expand = true ∧
      (worldPaste env).angle = 5 ∧ (worldPaste env).expand = true ∧
      Op.pasteLayer (helloPaste env) ∈ (generateIcon env).ops ∧
      Op.pasteLayer (worldPaste env) ∈ (generateIcon env).ops := by
  refine ⟨rfl, rfl, rfl, rfl, ?_, ?_⟩ <;>
    simp [generateIcon, runWith, helloPaste, worldPaste, helloImg, worldImg,
      helloX, worldX, helloBBox, worldBBox, helloWidth, worldWidth,
      helloHeight, worldHeight]

/-- C6: each rotated layer is pasted with itself as the transparency mask, at
x-coordinate 512 − (text width // 2) − 50 and at y-coordinate 350 − 25 for
"Hello" and 520 − 25 for "World". -/
theorem paste_positions_and_mask (env : Env) :
    (helloPaste env).pos = (512 - (helloWidth env).fdiv 2 - 50, 350 - 25) ∧
      (helloPaste env).maskIsLayer = true ∧
      (worldPaste env).pos = (512 - (worldWidth env).fdiv 2 - 50, 520 - 25) ∧
      (worldPaste env).maskIsLayer = true ∧
      Op.pasteLayer (helloPaste env) ∈ (generateIcon env).ops ∧
      Op.pasteLayer (worldPaste env) ∈ (generateIcon env).ops := by
  refine ⟨rfl, rfl, rfl, rfl, ?_, ?_⟩ <;>
    simp [generateIcon, runWith, helloPaste, worldPaste, helloImg, worldImg,
      helloX, worldX, helloBBox, worldBBox, helloWidth, worldWidth,
      helloHeight, worldHeight]

/-! ### Star-geometry lemmas -/

lemma radiansOf_neg_ninety : radiansOf (-90) = -(Real.pi / 2) := by
  unfold radiansOf
  push_cast
  ring

lemma starVertex_zero (pos : ℤ × ℤ) :
    starVertex pos 0 = ((pos.1 : ℝ), (pos.2 : ℝ) - 20) := by
  unfold starVertex
  have h : starAngleDeg 0 - 90 = -90 := by decide
  rw [h, radiansOf_neg_ninety]
  simp [starRadius, starSize, Real.cos_pi_div_two, Real.sin_pi_div_two]
  ring

lemma starRadius_nonneg (i : ℕ) : 0 ≤ starRadius i := by
  unfold starRadius starSize
  split <;> decide

lemma starRadius_le_twenty (i : ℕ) : starRadius i ≤ 20 := by
  unfold starRadius starSize
  split <;> decide

lemma starRadius_cast (i : ℕ) :
    (starRadius i : ℝ) = if i % 2 = 0 then (20 : ℝ) else 10 := by
  unfold starRadius starSize
  split <;> norm_num

lemma radiansOf_star (i : ℕ) :
    radiansOf (starAngleDeg i - 90) = ((i : ℝ) * 36 - 90) * Real.pi / 180 := by
  unfold radiansOf starAngleDeg
  push_cast
  ring

lemma starVertex_bound (pos : ℤ × ℤ) (i : ℕ)
    (h1 : 20 ≤ pos.1) (h2 : pos.1 ≤ 1004) (h3 : 20 ≤ pos.2) (h4 : pos.2 ≤ 1004) :
    0 ≤ (starVertex pos i).1 ∧ (starVertex pos i).1 ≤ 1024 ∧
      0 ≤ (starVertex pos i).2 ∧ (starVertex pos i).2 ≤ 1024 := by
  have hr0 : (0 : ℝ) ≤ (starRadius i : ℝ) := by exact_mod_cast starRadius_nonneg i
  have hr20 : (starRadius i : ℝ) ≤ 20 := by exact_mod_cast starRadius_le_twenty i
  have hx1 : (20 : ℝ) ≤ (pos.1 : ℝ) := by exact_mod_cast h1
  have hx2 : (pos.1 : ℝ) ≤ 1004 := by exact_mod_cast h2
  have hy1 : (20 : ℝ) ≤ (pos.2 : ℝ) := by exact_mod_cast h3
  have hy2 : (pos.2 : ℝ) ≤ 1004 := by exact_mod_cast h4
  have hcu : Real.cos (radiansOf (starAngleDeg i - 90)) ≤ 1 := Real.cos_le_one _
  have hcl : -1 ≤ Real.cos (radiansOf (starAngleDeg i - 90)) := Real.neg_one_le_cos _
  have hsu : Real.sin (radiansOf (starAngleDeg i - 90)) ≤ 1 := Real.sin_le_one _
  have hsl : -1 ≤ Real.sin (radiansOf (starAngleDeg i - 90)) := Real.neg_one_le_sin _
  have hcmu : (starRadius i : ℝ) * Real.cos (radiansOf (starAngleDeg i - 90)) ≤ 20 := by
    nlinarith
  have hcml : -20 ≤ (starRadius i : ℝ) * Real.cos (radiansOf (starAngleDeg i - 90)) := by
    nlinarith
  have hsmu : (starRadius i : ℝ) * Real.sin (radiansOf (starAngleDeg i - 90)) ≤ 20 := by
    nlinarith
  have hsml : -20 ≤ (starRadius i : ℝ) * Real.sin (radiansOf (starAngleDeg i - 90)) := by
    nlinarith
  refine ⟨?_, ?_, ?_, ?_⟩ <;> dsimp only [starVertex] <;> linarith

/-- C7: the star at each of the four fixed positions has exactly ten
vertices; vertex `i` lies at polar angle `i·36° − 90°` from the position, at
radius 20 for even `i` and radius 10 for odd `i`, converted to Cartesian
coordinates as `(pos.x + r·cos θ, pos.y + r·sin θ)`; vertex 0 is directly
above the centre at `(pos.x, pos.y − 20)`; and the run fills the polygon at
that position with the semi-transparent gold colour (255, 215, 0, 200). -/
theorem star_polygon_vertices (env : Env) (pos : ℤ × ℤ)
    (hpos : pos ∈ sparklePositions) (i : ℕ) (hi : i < 10) :
    (starPoints pos).length = 10 ∧
      (starPoints pos)[i]? =
        some ((pos.1 : ℝ) + (if i % 2 = 0 then (20 : ℝ) else 10) *
            Real.cos (((i : ℝ) * 36 - 90) * Real.pi / 180),
          (pos.2 : ℝ) + (if i % 2 = 0 then (20 : ℝ) else 10) *
            Real.sin (((i : ℝ) * 36 - 90) * Real.pi / 180)) ∧
      (starPoints pos)[0]? = some ((pos.1 : ℝ), (pos.2 : ℝ) - 20) ∧
      Op.starPolygon pos starColor ∈ (generateIcon env).ops ∧
      starColor = ⟨255, 215, 0, 200⟩ := by
  refine ⟨by simp [starPoints], ?_, ?_, ?_, rfl⟩
  · rw [starPoints, List.getElem?_map, List.getElem?_range hi, Option.map_some']
    simp only [starVertex, starRadius_cast, radiansOf_star]
  · rw [starPoints, List.getElem?_map, List.getElem?_range (by norm_num : (0 : ℕ) < 10),
      Option.map_some', starVertex_zero]
  · simp only [generateIcon, runWith, List.mem_append, List.mem_map,
      List.mem_singleton]
    exact Or.inl (Or.inl (Or.inr ⟨pos, hpos, rfl⟩))

/-- C7 witness: the conclusion at the first star position and vertex 0, in
the all-loads-succeed environment. -/
theorem star_polygon_vertices_first :
    (starPoints (180, 200)).length = 10 ∧
      (starPoints (180, 200))[0]? =
        some (((180 : ℤ) : ℝ) + (if 0 % 2 = 0 then (20 : ℝ) else 10) *
            Real.cos ((((0 : ℕ) : ℝ) * 36 - 90) * Real.pi / 180),
          ((200 : ℤ) : ℝ) + (if 0 % 2 = 0 then (20 : ℝ) else 10) *
            Real.sin ((((0 : ℕ) : ℝ) * 36 - 90) * Real.pi / 180)) ∧
      (starPoints (180, 200))[0]? = some (((180 : ℤ) : ℝ), ((200 : ℤ) : ℝ) - 20) ∧
      Op.starPolygon (180, 200) starColor ∈ (generateIcon envTrue).ops ∧
      starColor = ⟨255, 215, 0, 200⟩ :=
  star_polygon_vertices envTrue (180, 200) (by simp [sparklePositions]) 0 (by norm_num)

/-- C8: every decoration lies within the 1024×1024 canvas: each star position
keeps a 20-pixel margin to every edge and every actual star vertex has both
coordinates in [0, 1024]; each heart's 15-pixel-radius bounding box has all
corners in [0, 1024]. -/
theorem decorations_within_canvas :
    (∀ pos ∈ sparklePositions,
        (0 ≤ pos.1 - 20 ∧ pos.1 + 20 ≤ 1024 ∧ 0 ≤ pos.2 - 20 ∧ pos.2 + 20 ≤ 1024) ∧
          ∀ p ∈ starPoints pos, 0 ≤ p.1 ∧ p.1 ≤ 1024 ∧ 0 ≤ p.2 ∧ p.2 ≤ 1024) ∧
      ∀ pos ∈ heartPositions,
        0 ≤ (heartBBox pos).x0 ∧ (heartBBox pos).x1 ≤ 1024 ∧
          0 ≤ (heartBBox pos).y0 ∧ (heartBBox pos).y1 ≤ 1024 := by
  constructor
  · intro pos hpos
    have hb : 20 ≤ pos.1 ∧ pos.1 ≤ 1004 ∧ 20 ≤ pos.2 ∧ pos.2 ≤ 1004 := by
      simp only [sparklePositions, List.mem_cons, List.not_mem_nil, or_false] at hpos
      rcases hpos with rfl | rfl | rfl | rfl <;> norm_num
    obtain ⟨h1, h2, h3, h4⟩ := hb
    refine ⟨⟨by linarith, by linarith, by linarith, by linarith⟩, ?_⟩
    intro p hp
    simp only [starPoints, List.mem_map, List.mem_range] at hp
    obtain ⟨i, _, rfl⟩ := hp
    exact starVertex_bound pos i h1 h2 h3 h4
  · intro pos hpos
    simp only [heartPositions, List.mem_cons, List.not_mem_nil, or_false] at hpos
    rcases hpos with rfl | rfl <;> simp [heartBBox]

/-- C8 witness: the bounds at the first star position (with its vertex 0) and
the first heart position. -/
theorem decorations_within_canvas_first :
    (0 ≤ (starVertex (180, 200) 0).1 ∧ (starVertex (180, 200) 0).1 ≤ 1024 ∧
        0 ≤ (starVertex (180, 200) 0).2 ∧ (starVertex (180, 200) 0).2 ≤ 1024) ∧
      (0 ≤ (heartBBox (240, 340)).x0 ∧ (heartBBox (240, 340)).x1 ≤ 1024 ∧
        0 ≤ (heartBBox (240, 340)).y0 ∧ (heartBBox (240, 340)).y1 ≤ 1024) :=
  ⟨(decorations_within_canvas.1 (180, 200) (by simp [sparklePositions])).2
      (starVertex (180, 200) 0)
      (List.mem_map_of_mem _ (List.mem_range.mpr (by norm_num))),
    decorations_within_canvas.2 (240, 340) (by simp [heartPositions])⟩

/-- C9: if none of the operations after the background circle (text-layer
pastes, star polygons — the hearts provably do not reach it) covers the
centre pixel (512, 512), the final canvas there is the opaque background fill
colour (248, 249, 250, 255): the pixel lies strictly inside the radius-480
circle drawn with that fill over a canvas initialised to the same colour. -/
theorem center_pixel_is_background (env : Env)
    (hpaste : ∀ d, env.pasteColor d (512, 512) = none)
    (hstar : ∀ pos c, env.starPaint pos c (512, 512) = none) :
    finalColorAt env (generateIcon env) (512, 512) = ⟨248, 249, 250, 255⟩ ∧
      (finalColorAt env (generateIcon env) (512, 512)).a = 255 := by
  have h : finalColorAt env (generateIcon env) (512, 512) = ⟨248, 249, 250, 255⟩ := by
    simp only [finalColorAt, generateIcon, runWith, sparklePositions, heartPositions,
      List.map_cons, List.map_nil, List.append_assoc, List.cons_append, List.nil_append,
      List.foldl_cons, List.foldl_nil, paintAt, hpaste, hstar]
    norm_num [insideEllipse, BBox.shrink, circleBBox, heartBBox, center, radius,
      backgroundColor, Option.getD]
  exact ⟨h, by rw [h]⟩

/-- C9 witness: the conclusion in the environment whose pastes and polygons
cover no pixel at all. -/
theorem center_pixel_is_background_holds :
    finalColorAt envTrue (generateIcon envTrue) (512, 512) = ⟨248, 249, 250, 255⟩ ∧
      (finalColorAt envTrue (generateIcon envTrue) (512, 512)).a = 255 :=
  center_pixel_is_background envTrue (fun _ => rfl) (fun _ _ => rfl)

/-- C10 counterexample: in the environment where exactly the
`truetype("arial.ttf", 40)` load raises, the run differs from the run of the
script that never loads `font_emoji` — both in the issued operations (the
labels are drawn with the tier-2 font instead of the tier-1 font) and in the
colour of the centre pixel of the produced image.  The output therefore does
depend on the loading of `font_emoji`. -/
theorem font_emoji_load_affects_output :
    generateIcon envSize40Fails ≠ generateIconNoEmoji envSize40Fails ∧
      finalColorAt envSize40Fails (generateIcon envSize40Fails) (512, 512) ≠
        finalColorAt envSize40Fails (generateIconNoEmoji envSize40Fails) (512, 512) := by
  constructor <;> decide

/-- C10 (amended): `font_emoji` is never passed to any text-measurement or
drawing operation — the only fonts a run uses are `font_large`, once per
label — and, provided the success of each `truetype` load does not depend on
the requested size (the 140pt and 40pt loads of a path both succeed or both
fail), the run is identical to the run of the script that never loads
`font_emoji`. -/
theorem font_emoji_unused_in_drawing (env : Env)
    (h : ∀ path, env.truetypeOk path 140 = env.truetypeOk path 40) :
    fontsUsed (generateIcon env) = [fontLarge env, fontLarge env] ∧
      generateIcon env = generateIconNoEmoji env := by
  refine ⟨rfl, ?_⟩
  have hfl : fontLarge env = resolveFontLargeOnly env := by
    have h1 := h "arial.ttf"
    have h2 := h "C:/Windows/Fonts/arial.ttf"
    unfold fontLarge resolveFonts resolveFontLargeOnly
    cases hA : env.truetypeOk "arial.ttf" 140 <;>
      cases hC : env.truetypeOk "C:/Windows/Fonts/arial.ttf" 140 <;>
        simp [hA, hC, ← h1, ← h2]
  unfold generateIcon generateIconNoEmoji
  rw [hfl]

/-- C10 witness (for the amended claim): the conclusion in the environment in
which every load succeeds, where the size-independence hypothesis holds
trivially. -/
theorem font_emoji_unused_in_drawing_holds :
    fontsUsed (generateIcon envTrue) = [fontLarge envTrue, fontLarge envTrue] ∧
      generateIcon envTrue = generateIconNoEmoji envTrue :=
  font_emoji_unused_in_drawing envTrue (fun _ => rfl)

end IconGen